import Mathlib

/-!
Shallow embedding of the vehicle-inspection check system: the data model,
the request validator, the check store/service and the three HTTP
controllers (`createCheck`, `getChecks`, `deleteCheck`).  The controller
bodies are translated from `src/frontend/src/CheckForm.tsx` (which holds
the controller source `checkController.ts`); the service layer
(`checkService.ts`) and the validator (`validateCheckRequest` of
`validation.ts`) are not in the sources, so they are modelled from the
specification, as marked on each definition.
-/

namespace VehicleChecks

/-- The five fixed checklist categories (`CHECK_ITEMS` in the source). -/
inductive CheckItemKey
  | TYRES
  | BRAKES
  | LIGHTS
  | OIL
  | COOLANT
deriving DecidableEq

/-- Status of one checklist entry: exactly `OK` or `FAIL`. -/
inductive ItemStatus
  | OK
  | FAIL
deriving DecidableEq

/-- One checklist entry: a category together with its status. -/
structure CheckItem where
  key : CheckItemKey
  status : ItemStatus
deriving DecidableEq

/-- A stored inspection record.  `id` is the opaque unique identifier
(modelled as a natural number), `createdAt` the creation timestamp
(milliseconds since the epoch, modelled as a natural number),
`odometerKm` the numeric reading (modelled as a rational). -/
structure InspectionCheck where
  id : Nat
  vehicleId : String
  odometerKm : Rat
  items : List CheckItem
  note : Option String
  hasIssue : Bool
  createdAt : Nat
deriving DecidableEq

/-- A field-level validation problem, as in the `details` array of a
`VALIDATION_ERROR` response body. -/
structure Problem where
  field : String
  reason : String
deriving DecidableEq

/-- The `error` object of an error response body. -/
structure ErrorBody where
  code : String
  message : String
  details : List Problem
deriving DecidableEq

/-- The JSON body of an HTTP response from the check controllers. -/
inductive ResponseBody
  | check (c : InspectionCheck)
  | checkList (cs : List InspectionCheck)
  | err (e : ErrorBody)
  | empty
deriving DecidableEq

/-- An HTTP response: status code and body. -/
structure HttpResponse where
  status : Nat
  body : ResponseBody
deriving DecidableEq

/-- A raw numeric field of an untyped JSON payload: a finite number, a
non-finite number (NaN or an infinity), or a value of a non-numeric type. -/
inductive RawNum
  | num (q : Rat)
  | notFinite
  | nonNumeric
deriving DecidableEq

/-- An untyped checklist entry as submitted: raw string key and status. -/
structure RawItem where
  key : String
  status : String
deriving DecidableEq

/-- The untyped candidate payload of `POST /checks` (`req.body`); every
field may be absent. -/
structure RawCandidate where
  vehicleId : Option String
  odometerKm : Option RawNum
  items : Option (List RawItem)
  note : Option String
deriving DecidableEq

/-- The five category names as raw strings, in declaration order. -/
def CHECK_ITEM_KEYS : List String :=
  ["TYRES", "BRAKES", "LIGHTS", "OIL", "COOLANT"]

/-- Modelled from the spec: the `vehicleId` check of `validateCheckRequest`
(`validation.ts`, not in the sources): required, non-empty, and must
reference a known vehicle. -/
def vehicleIdProblems (knownVehicles : List String) : Option String → List Problem
  | none => [⟨"vehicleId", "is required"⟩]
  | some v =>
    if v = "" then [⟨"vehicleId", "is required"⟩]
    else if knownVehicles.contains v then []
    else [⟨"vehicleId", "unknown vehicle"⟩]

/-- Modelled from the spec: the `odometerKm` check of
`validateCheckRequest` (`validation.ts`, not in the sources): required,
must be a finite number, must be greater than zero (reason text
`must be > 0` is fixed by the spec scenario). -/
def odometerProblems : Option RawNum → List Problem
  | none => [⟨"odometerKm", "is required"⟩]
  | some RawNum.nonNumeric => [⟨"odometerKm", "must be a number"⟩]
  | some RawNum.notFinite => [⟨"odometerKm", "must be a finite number"⟩]
  | some (RawNum.num q) => if q ≤ 0 then [⟨"odometerKm", "must be > 0"⟩] else []

/-- The submitted items carry exactly one entry per fixed category and no
unknown categories. -/
def itemKeysWellFormed (its : List RawItem) : Bool :=
  (CHECK_ITEM_KEYS.all fun k => its.countP (fun i => i.key == k) == 1) &&
    (its.all fun i => CHECK_ITEM_KEYS.contains i.key)

/-- Every submitted item status is exactly the string `OK` or `FAIL`. -/
def itemStatusesWellFormed (its : List RawItem) : Bool :=
  its.all fun i => i.status == "OK" || i.status == "FAIL"

/-- Modelled from the spec: the `items` check of `validateCheckRequest`
(`validation.ts`, not in the sources): required; exactly one entry per
category, no duplicates, no omissions, no unknown categories; each status
exactly `OK` or `FAIL`. -/
def itemsProblems : Option (List RawItem) → List Problem
  | none => [⟨"items", "is required"⟩]
  | some its =>
    (if itemKeysWellFormed its then []
     else [⟨"items", "must contain exactly one entry per category"⟩]) ++
      (if itemStatusesWellFormed its then []
       else [⟨"items", "each status must be OK or FAIL"⟩])

/-- Modelled from the spec: the `note` check of `validateCheckRequest`
(`validation.ts`, not in the sources): if present, at most 300 characters;
absent is valid. -/
def noteProblems : Option String → List Problem
  | none => []
  | some s =>
    if s.length ≤ 300 then [] else [⟨"note", "must be at most 300 characters"⟩]

/-- Modelled from the spec: `validateCheckRequest` (`validation.ts`, not in
the sources): a pure function collecting all field problems in field
declaration order. -/
def validateCheckRequest (knownVehicles : List String) (c : RawCandidate) :
    List Problem :=
  vehicleIdProblems knownVehicles c.vehicleId ++ odometerProblems c.odometerKm ++
    itemsProblems c.items ++ noteProblems c.note

/-- Reading a raw category string back as a `CheckItemKey`. -/
def parseKey : String → Option CheckItemKey
  | "TYRES" => some CheckItemKey.TYRES
  | "BRAKES" => some CheckItemKey.BRAKES
  | "LIGHTS" => some CheckItemKey.LIGHTS
  | "OIL" => some CheckItemKey.OIL
  | "COOLANT" => some CheckItemKey.COOLANT
  | _ => none

/-- Reading a raw status string back as an `ItemStatus`. -/
def parseStatus : String → Option ItemStatus
  | "OK" => some ItemStatus.OK
  | "FAIL" => some ItemStatus.FAIL
  | _ => none

/-- Reading one raw checklist entry back as a typed `CheckItem`. -/
def parseItem (i : RawItem) : Option CheckItem :=
  match parseKey i.key, parseStatus i.status with
  | some k, some st => some ⟨k, st⟩
  | _, _ => none

/-- Reading a raw item list back as typed checklist entries. -/
def parseItems : List RawItem → Option (List CheckItem)
  | [] => some []
  | i :: is =>
    match parseItem i, parseItems is with
    | some c, some cs => some (c :: cs)
    | _, _ => none

/-- The typed creation payload (`CreateCheckData` of the service layer). -/
structure CreateCheckData where
  vehicleId : String
  odometerKm : Rat
  items : List CheckItem
  note : Option String
deriving DecidableEq

/-- The typed reading of a raw candidate.  In the TypeScript source the
controller hands `req.body` to the service untyped; here the coercion is
explicit, and validation success guarantees it cannot fail
(`parseCandidate_isSome_of_valid`). -/
def parseCandidate (c : RawCandidate) : Option CreateCheckData :=
  match c.vehicleId, c.odometerKm, c.items with
  | some v, some (RawNum.num q), some rawIts =>
    match parseItems rawIts with
    | some its => some ⟨v, q, its, c.note⟩
    | none => none
  | _, _, _ => none

/-- The derived flag: true iff at least one item has status `FAIL`. -/
def computeHasIssue (items : List CheckItem) : Bool :=
  items.any fun i => i.status == ItemStatus.FAIL

/-- The in-memory store: the records in insertion order, plus the counter
that yields the next fresh identifier. -/
structure StoreState where
  checks : List InspectionCheck
  nextId : Nat
deriving DecidableEq

/-- The store at process start: no records. -/
def emptyStore : StoreState := ⟨[], 0⟩

/-- Modelled from the spec: `checkService.createCheck` (`checkService.ts`,
not in the sources): assigns a fresh unique id, captures the current time
as `createdAt`, computes `hasIssue` from the final item list, stores the
record and returns it. -/
def createCheckService (d : CreateCheckData) (now : Nat) (s : StoreState) :
    InspectionCheck × StoreState :=
  let r : InspectionCheck :=
    ⟨s.nextId, d.vehicleId, d.odometerKm, d.items, d.note,
      computeHasIssue d.items, now⟩
  (r, ⟨s.checks ++ [r], s.nextId + 1⟩)

/-- The filters of the list operation (`CheckFilters` of the service):
`vehicleId` required, `hasIssue` optional. -/
structure CheckFilters where
  vehicleId : String
  hasIssue : Option Bool
deriving DecidableEq

/-- Whether a stored record matches the given filters. -/
def matchesFilters (f : CheckFilters) (c : InspectionCheck) : Bool :=
  c.vehicleId == f.vehicleId &&
    (match f.hasIssue with
     | none => true
     | some b => c.hasIssue == b)

/-- The sort relation of list results: `a` is at least as recent as `b`. -/
def moreRecent (a b : InspectionCheck) : Prop :=
  b.createdAt ≤ a.createdAt

instance : DecidableRel moreRecent := fun _ _ => Nat.decLe _ _

instance : IsTotal InspectionCheck moreRecent :=
  ⟨fun a b => Nat.le_total b.createdAt a.createdAt⟩

instance : IsTrans InspectionCheck moreRecent :=
  ⟨fun _ _ _ hab hbc => Nat.le_trans hbc hab⟩

/-- Modelled from the spec: `checkService.getChecks` (`checkService.ts`,
not in the sources): the matching records sorted by `createdAt`
descending, ties broken by reverse insertion order (the filtered list is
reversed, then stably sorted by recency). -/
def getChecksService (f : CheckFilters) (s : StoreState) : List InspectionCheck :=
  List.insertionSort moreRecent ((s.checks.filter (matchesFilters f)).reverse)

/-- Modelled from the spec: `checkService.deleteCheck` (`checkService.ts`,
not in the sources): removes the record with the given id if present and
reports whether a record was actually removed; a missing id is not an
error at this layer. -/
def deleteCheckService (id : Nat) (s : StoreState) : Bool × StoreState :=
  if s.checks.any (fun c => c.id == id) then
    (true, ⟨s.checks.filter (fun c => c.id != id), s.nextId⟩)
  else (false, s)

/-- A 400 response with a `VALIDATION_ERROR` body, as built in the
controller source. -/
def validationErrorResponse (details : List Problem) : HttpResponse :=
  ⟨400, ResponseBody.err ⟨"VALIDATION_ERROR", "Invalid request", details⟩⟩

/-- The `createCheck` controller, translated from the source: validate the
body; on any problem answer 400 with the problems as `details` and leave
the store untouched; otherwise create through the service and answer 201
with the stored record.  The `none` branch of the match is unreachable
when validation passed (`parseCandidate_isSome_of_valid`). -/
def createCheckController (knownVehicles : List String) (body : RawCandidate)
    (now : Nat) (s : StoreState) : HttpResponse × StoreState :=
  let errors := validateCheckRequest knownVehicles body
  if 0 < errors.length then
    (validationErrorResponse errors, s)
  else
    match parseCandidate body with
    | some d =>
      let rs := createCheckService d now s
      (⟨201, ResponseBody.check rs.1⟩, rs.2)
    | none => (⟨500, ResponseBody.empty⟩, s)

/-- The query parameters of `GET /checks` as raw optional strings. -/
structure GetChecksQuery where
  vehicleId : Option String
  hasIssue : Option String
deriving DecidableEq

/-- The `getChecks` controller, translated from the source: a missing or
falsy (empty) `vehicleId` answers 400; otherwise the `hasIssue` parameter,
when present, is mapped to a boolean by exact comparison with the string
`true`, and the service result is answered with status 200. -/
def getChecksController (q : GetChecksQuery) (s : StoreState) : HttpResponse :=
  match q.vehicleId with
  | none => validationErrorResponse [⟨"vehicleId", "is required"⟩]
  | some v =>
    if v = "" then validationErrorResponse [⟨"vehicleId", "is required"⟩]
    else
      let filters : CheckFilters :=
        match q.hasIssue with
        | some h => ⟨v, some (h == "true")⟩
        | none => ⟨v, none⟩
      ⟨200, ResponseBody.checkList (getChecksService filters s)⟩

/-- The `deleteCheck` controller, translated from the source: delete
through the service; answer 204 with an empty body when a record was
removed, else 404 with a `NOT_FOUND` body whose `details` is empty.  (The
guard of the source on a missing route parameter is outside the typed
input space.) -/
def deleteCheckController (id : Nat) (s : StoreState) : HttpResponse × StoreState :=
  let rs := deleteCheckService id s
  if rs.1 then (⟨204, ResponseBody.empty⟩, rs.2)
  else (⟨404, ResponseBody.err ⟨"NOT_FOUND", "Check not found", []⟩⟩, rs.2)

/-- Whitespace trim of the form input (the JavaScript string trim): drop
whitespace from both ends. -/
def trimString (s : String) : String :=
  ⟨((s.data.dropWhile Char.isWhitespace).reverse.dropWhile
      Char.isWhitespace).reverse⟩

/-- The note normalization of the form submit handler, translated from the
source: `note.trim() ? note.trim() : undefined` — an empty (or
whitespace-only) note is sent as absent, never as an empty string. -/
def normalizeNote (note : String) : Option String :=
  if trimString note = "" then none else some (trimString note)

/-- Every stored record satisfies the derived-flag invariant:
`hasIssue` equals `any(item.status == FAIL)` over its items. -/
def hasIssueInvariant (s : StoreState) : Prop :=
  ∀ c ∈ s.checks, c.hasIssue = computeHasIssue c.items

/-- Every stored identifier is below the fresh-id counter (hence the next
assigned id is unique). -/
def idsFresh (s : StoreState) : Prop :=
  ∀ c ∈ s.checks, c.id < s.nextId

/-- A raw item list matching the spec scenario: `BRAKES` fails. -/
def sampleRawItems : List RawItem :=
  [⟨"TYRES", "OK"⟩, ⟨"BRAKES", "FAIL"⟩, ⟨"LIGHTS", "OK"⟩,
    ⟨"OIL", "OK"⟩, ⟨"COOLANT", "OK"⟩]

/-- A valid candidate matching the spec scenario. -/
def sampleCandidate : RawCandidate :=
  ⟨some "VH001", some (RawNum.num 15000), some sampleRawItems, none⟩

/-- A candidate with every field absent (fails validation). -/
def emptyCandidate : RawCandidate := ⟨none, none, none, none⟩

/-- The typed checklist of the spec scenario: `BRAKES` fails. -/
def sampleItems : List CheckItem :=
  [⟨CheckItemKey.TYRES, ItemStatus.OK⟩, ⟨CheckItemKey.BRAKES, ItemStatus.FAIL⟩,
    ⟨CheckItemKey.LIGHTS, ItemStatus.OK⟩, ⟨CheckItemKey.OIL, ItemStatus.OK⟩,
    ⟨CheckItemKey.COOLANT, ItemStatus.OK⟩]

/-- A stored record with an issue, used as a concrete store inhabitant. -/
def sampleCheck : InspectionCheck :=
  ⟨0, "VH001", 15000, sampleItems, none, true, 5⟩

/-- A store holding exactly `sampleCheck`. -/
def sampleStore : StoreState := ⟨[sampleCheck], 1⟩

/-- The typed creation payload of the spec scenario. -/
def sampleData : CreateCheckData := ⟨"VH001", 15000, sampleItems, none⟩

/-- A note of 301 characters (one over the limit). -/
def longNote : String := ⟨List.replicate 301 'a'⟩

/-- Inserting a record whose timestamp is `t` puts it in front of every
other record with timestamp `t` (the skipped records are strictly more
recent), so the `t`-filtered view gains the new record at the head. -/
theorem orderedInsert_filter_createdAt_eq (c : InspectionCheck) (t : Nat)
    (l : List InspectionCheck) (h : c.createdAt = t) :
    (List.orderedInsert moreRecent c l).filter (fun x => x.createdAt == t) =
      c :: l.filter (fun x => x.createdAt == t) := by
  induction l with
  | nil => simp [h]
  | cons b l ih =>
    by_cases hcb : moreRecent c b
    · simp [List.orderedInsert, hcb, h]
    · have hcb2 : c.createdAt < b.createdAt := Nat.lt_of_not_le hcb
      have hb : ¬ b.createdAt = t := by omega
      simp [List.orderedInsert, hcb, List.filter_cons, hb, h, ih]

/-- Inserting a record whose timestamp is not `t` leaves the `t`-filtered
view unchanged. -/
theorem orderedInsert_filter_createdAt_ne (c : InspectionCheck) (t : Nat)
    (l : List InspectionCheck) (h : ¬ c.createdAt = t) :
    (List.orderedInsert moreRecent c l).filter (fun x => x.createdAt == t) =
      l.filter (fun x => x.createdAt == t) := by
  induction l with
  | nil => simp [h]
  | cons b l ih =>
    by_cases hcb : moreRecent c b
    · simp [List.orderedInsert, hcb, List.filter_cons, h]
    · simp [List.orderedInsert, hcb, List.filter_cons, h, ih]

/-- The recency sort is stable: records sharing one `createdAt` value keep
their relative order. -/
theorem insertionSort_filter_createdAt (t : Nat) (l : List InspectionCheck) :
    (List.insertionSort moreRecent l).filter (fun x => x.createdAt == t) =
      l.filter (fun x => x.createdAt == t) := by
  induction l with
  | nil => rfl
  | cons c l ih =>
    by_cases h : c.createdAt = t
    · rw [List.insertionSort, orderedInsert_filter_createdAt_eq c t _ h, ih]
      simp [h]
    · rw [List.insertionSort, orderedInsert_filter_createdAt_ne c t _ h, ih]
      simp [h]

/-- A record is in a list result iff it is stored and matches the filters. -/
theorem mem_getChecksService {c : InspectionCheck} {f : CheckFilters}
    {s : StoreState} :
    c ∈ getChecksService f s ↔ c ∈ s.checks ∧ matchesFilters f c = true := by
  unfold getChecksService
  rw [(List.perm_insertionSort moreRecent _).mem_iff, List.mem_reverse,
    List.mem_filter]

/-- When nothing matches the filters the list result is empty. -/
theorem getChecksService_eq_nil {f : CheckFilters} {s : StoreState}
    (h : s.checks.filter (matchesFilters f) = []) : getChecksService f s = [] := by
  unfold getChecksService
  rw [h]
  rfl

/-- C5: for every list(filters) call the returned records are sorted by
createdAt descending (each record at least as recent as the next), they
are a permutation of the stored records matching the filters, and within
each createdAt value the order is exactly the reverse of insertion order
(ties broken by reverse insertion order). -/
theorem C5_list_sorted_desc (f : CheckFilters) (s : StoreState) :
    (getChecksService f s).Pairwise moreRecent ∧
    (getChecksService f s).Perm (s.checks.filter (matchesFilters f)) ∧
    ∀ t : Nat, (getChecksService f s).filter (fun c => c.createdAt == t) =
      ((s.checks.filter (matchesFilters f)).filter
        (fun c => c.createdAt == t)).reverse := by
  refine ⟨List.sorted_insertionSort moreRecent _,
    (List.perm_insertionSort moreRecent _).trans (List.reverse_perm _), ?_⟩
  intro t
  unfold getChecksService
  rw [insertionSort_filter_createdAt, List.filter_reverse]

/-- C5 witness: the sort and tie-break characterization evaluated on the
one-record sample store. -/
theorem C5_list_sorted_desc_witness :
    (getChecksService ⟨"VH001", none⟩ sampleStore).filter
        (fun c => c.createdAt == 5) =
      ((sampleStore.checks.filter (matchesFilters ⟨"VH001", none⟩)).filter
        (fun c => c.createdAt == 5)).reverse :=
  (C5_list_sorted_desc ⟨"VH001", none⟩ sampleStore).2.2 5

/-- C6 counterexample: on the empty store (a reachable stored collection)
the hasIssue=true result equals the unfiltered result — both are empty —
so the filtered result is not a strict subset of the unfiltered one. -/
theorem C6_counterexample :
    getChecksService ⟨"VH001", some true⟩ emptyStore = [] ∧
    getChecksService ⟨"VH001", none⟩ emptyStore = [] ∧
    ¬ (getChecksService ⟨"VH001", some true⟩ emptyStore ≠
        getChecksService ⟨"VH001", none⟩ emptyStore) := by
  decide

/-- C6 (amended): for every store, vehicleId and boolean b, every record
returned by list with the hasIssue=b filter is also returned by list with
vehicleId alone and has hasIssue equal to b: the filtered result is a
subset (not necessarily strict) restricted to matching records. -/
theorem C6_hasIssue_filter_subset (v : String) (b : Bool) (s : StoreState) :
    ∀ c ∈ getChecksService ⟨v, some b⟩ s,
      c ∈ getChecksService ⟨v, none⟩ s ∧ c.hasIssue = b := by
  intro c hc
  rw [mem_getChecksService] at hc
  obtain ⟨hmem, hmatch⟩ := hc
  simp only [matchesFilters, Bool.and_eq_true, beq_iff_eq] at hmatch
  refine ⟨mem_getChecksService.mpr ⟨hmem, ?_⟩, hmatch.2⟩
  simp [matchesFilters, hmatch.1]

/-- C6 witness: the sample record with an issue is returned by the
filtered list and by the unfiltered one. -/
theorem C6_hasIssue_filter_subset_witness :
    sampleCheck ∈ getChecksService ⟨"VH001", none⟩ sampleStore ∧
      sampleCheck.hasIssue = true :=
  C6_hasIssue_filter_subset "VH001" true sampleStore sampleCheck (by decide)

/-- C4 counterexample: a request whose vehicleId parameter is present but
empty is answered 400, not 200 — a present vehicleId does not suffice for
a 200 response. -/
theorem C4_counterexample :
    (getChecksController ⟨some "", none⟩ emptyStore).status = 400 ∧
    ¬ (getChecksController ⟨some "", none⟩ emptyStore).status = 200 := by
  decide

/-- C4 (amended): a GET /checks request with vehicleId missing or empty is
answered 400 VALIDATION_ERROR; with a present non-empty vehicleId it is
answered 200 with the matching records, and an empty result when no
stored record matches — never an error. -/
theorem C4_getChecks_requires_vehicleId (q : GetChecksQuery) (s : StoreState) :
    ((q.vehicleId = none ∨ q.vehicleId = some "") →
      getChecksController q s =
        validationErrorResponse [⟨"vehicleId", "is required"⟩] ∧
      (getChecksController q s).status = 400) ∧
    (∀ v, q.vehicleId = some v → ¬ v = "" →
      (getChecksController q s).status = 200 ∧
      ∃ f : CheckFilters, f.vehicleId = v ∧
        (getChecksController q s).body =
          ResponseBody.checkList (getChecksService f s) ∧
        (s.checks.filter (matchesFilters f) = [] →
          (getChecksController q s).body = ResponseBody.checkList [])) := by
  constructor
  · rintro (h | h) <;> simp [getChecksController, h, validationErrorResponse]
  · intro v hv hne
    cases hh : q.hasIssue with
    | none =>
      refine ⟨by simp [getChecksController, hv, hh, hne], ⟨v, none⟩, rfl,
        by simp [getChecksController, hv, hh, hne], ?_⟩
      intro hfil
      simp [getChecksController, hv, hh, hne, getChecksService_eq_nil hfil]
    | some h =>
      refine ⟨by simp [getChecksController, hv, hh, hne], ⟨v, some (h == "true")⟩,
        rfl, by simp [getChecksController, hv, hh, hne], ?_⟩
      intro hfil
      simp [getChecksController, hv, hh, hne, getChecksService_eq_nil hfil]

/-- C4 witness: a request with a non-empty vehicleId on the empty store is
answered 200. -/
theorem C4_getChecks_requires_vehicleId_witness :
    (getChecksController ⟨some "VH001", none⟩ emptyStore).status = 200 :=
  ((C4_getChecks_requires_vehicleId ⟨some "VH001", none⟩ emptyStore).2 "VH001"
    rfl (by decide)).1

/-- C10: for every present hasIssue query value h the boundary builds the
filter by exact string comparison with the string true: h = true yields
the filter hasIssue=true, any other h yields hasIssue=false, and the
response is always 200 — no hasIssue value is rejected. -/
theorem C10_hasIssue_param_mapping (v h : String) (s : StoreState)
    (hv : ¬ v = "") :
    getChecksController ⟨some v, some h⟩ s =
      ⟨200, ResponseBody.checkList (getChecksService ⟨v, some (h == "true")⟩ s)⟩ ∧
    (h = "true" →
      getChecksController ⟨some v, some h⟩ s =
        ⟨200, ResponseBody.checkList (getChecksService ⟨v, some true⟩ s)⟩) ∧
    (¬ h = "true" →
      getChecksController ⟨some v, some h⟩ s =
        ⟨200, ResponseBody.checkList (getChecksService ⟨v, some false⟩ s)⟩) ∧
    (getChecksController ⟨some v, some h⟩ s).status = 200 := by
  have hmain : getChecksController ⟨some v, some h⟩ s =
      ⟨200, ResponseBody.checkList (getChecksService ⟨v, some (h == "true")⟩ s)⟩ := by
    simp [getChecksController, hv]
  refine ⟨hmain, ?_, ?_, by rw [hmain]⟩
  · intro ht
    rw [hmain]
    simp [ht]
  · intro ht
    rw [hmain]
    simp [beq_eq_false_iff_ne.mpr ht]

/-- C10 witness: the value TRUE (wrong case) maps to the hasIssue=false
filter and is still answered 200. -/
theorem C10_hasIssue_param_mapping_witness :
    getChecksController ⟨some "VH001", some "TRUE"⟩ emptyStore =
      ⟨200, ResponseBody.checkList (getChecksService ⟨"VH001", some false⟩
        emptyStore)⟩ :=
  (C10_hasIssue_param_mapping "VH001" "TRUE" emptyStore (by decide)).2.2.1
    (by decide)

/-- A known category string reads back as a `CheckItemKey`. -/
theorem parseKey_isSome_of_known {k : String}
    (h : CHECK_ITEM_KEYS.contains k = true) : (parseKey k).isSome := by
  have hk : k = "TYRES" ∨ k = "BRAKES" ∨ k = "LIGHTS" ∨ k = "OIL" ∨
      k = "COOLANT" := by
    simpa [CHECK_ITEM_KEYS] using h
  rcases hk with h | h | h | h | h <;> subst h <;> rfl

/-- A status string that is exactly `OK` or `FAIL` reads back as an
`ItemStatus`. -/
theorem parseStatus_isSome {st : String}
    (h : (st == "OK" || st == "FAIL") = true) : (parseStatus st).isSome := by
  have hst : st = "OK" ∨ st = "FAIL" := by simpa using h
  rcases hst with h | h <;> subst h <;> rfl

/-- An item list that passes the category and status checks reads back as
typed checklist entries. -/
theorem parseItems_isSome {its : List RawItem}
    (hk : (its.all fun i => CHECK_ITEM_KEYS.contains i.key) = true)
    (hs : itemStatusesWellFormed its = true) : (parseItems its).isSome := by
  rw [itemStatusesWellFormed] at hs
  induction its with
  | nil => rfl
  | cons i is ih =>
    rw [List.all_cons, Bool.and_eq_true] at hk hs
    obtain ⟨k, hk1⟩ := Option.isSome_iff_exists.mp (parseKey_isSome_of_known hk.1)
    obtain ⟨st, hst⟩ := Option.isSome_iff_exists.mp (parseStatus_isSome hs.1)
    have hi : parseItem i = some ⟨k, st⟩ := by
      rw [parseItem, hk1, hst]
    obtain ⟨cs, hcs⟩ := Option.isSome_iff_exists.mp (ih hk.2 hs.2)
    simp [parseItems, hi, hcs]

/-- The first well-formedness check implies every submitted key is known. -/
theorem itemKeys_all_known {its : List RawItem}
    (h : itemKeysWellFormed its = true) :
    (its.all fun i => CHECK_ITEM_KEYS.contains i.key) = true := by
  rw [itemKeysWellFormed, Bool.and_eq_true] at h
  exact h.2

/-- An empty problem list splits into empty component problem lists. -/
theorem validate_eq_nil_parts {kv : List String} {c : RawCandidate}
    (h : validateCheckRequest kv c = []) :
    vehicleIdProblems kv c.vehicleId = [] ∧ odometerProblems c.odometerKm = [] ∧
      itemsProblems c.items = [] ∧ noteProblems c.note = [] := by
  rw [validateCheckRequest] at h
  simp only [List.append_eq_nil] at h
  tauto

/-- A vehicleId that produced no problem is a present, non-empty, known
vehicle reference. -/
theorem vehicleId_of_valid {kv : List String} {o : Option String}
    (h : vehicleIdProblems kv o = []) :
    ∃ v, o = some v ∧ ¬ v = "" ∧ v ∈ kv := by
  match o with
  | none => simp [vehicleIdProblems] at h
  | some v =>
    by_cases hv : v = ""
    · simp [vehicleIdProblems, hv] at h
    · by_cases hc : v ∈ kv
      · exact ⟨v, rfl, hv, hc⟩
      · simp [vehicleIdProblems, hv, hc] at h

/-- An odometer reading that produced no problem is a present finite
number strictly greater than zero. -/
theorem odometer_of_valid {o : Option RawNum} (h : odometerProblems o = []) :
    ∃ q : Rat, o = some (RawNum.num q) ∧ 0 < q := by
  match o with
  | none => simp [odometerProblems] at h
  | some RawNum.nonNumeric => simp [odometerProblems] at h
  | some RawNum.notFinite => simp [odometerProblems] at h
  | some (RawNum.num q) =>
    refine ⟨q, rfl, ?_⟩
    by_contra hq
    rw [not_lt] at hq
    simp [odometerProblems, hq] at h

/-- An item list that produced no problem is present and passes both
well-formedness checks. -/
theorem items_of_valid {o : Option (List RawItem)} (h : itemsProblems o = []) :
    ∃ its, o = some its ∧ itemKeysWellFormed its = true ∧
      itemStatusesWellFormed its = true := by
  match o with
  | none => simp [itemsProblems] at h
  | some its =>
    refine ⟨its, rfl, ?_, ?_⟩
    · by_contra hk
      simp [itemsProblems, hk] at h
    · by_contra hs
      simp [itemsProblems, hs] at h

/-- Validation success guarantees the untyped candidate reads back as a
typed creation payload: the unreachable branch of the controller. -/
theorem parseCandidate_isSome_of_valid {kv : List String} {c : RawCandidate}
    (h : validateCheckRequest kv c = []) : (parseCandidate c).isSome := by
  obtain ⟨hv, ho, hi, -⟩ := validate_eq_nil_parts h
  obtain ⟨v, hv1, -, -⟩ := vehicleId_of_valid hv
  obtain ⟨q, ho1, -⟩ := odometer_of_valid ho
  obtain ⟨its, hi1, hik, his⟩ := items_of_valid hi
  obtain ⟨tits, htits⟩ := Option.isSome_iff_exists.mp
    (parseItems_isSome (itemKeys_all_known hik) his)
  unfold parseCandidate
  rw [hv1, ho1, hi1]
  simp [htits]

/-- C2: a candidate on which the validator reports at least one problem is
answered 400 with a VALIDATION_ERROR body whose details are exactly the
(non-empty) problem list, and the store is left unchanged — the service
create step is never reached. -/
theorem C2_validation_failure (kv : List String) (body : RawCandidate)
    (now : Nat) (s : StoreState) (h : ¬ validateCheckRequest kv body = []) :
    (createCheckController kv body now s).1 =
      validationErrorResponse (validateCheckRequest kv body) ∧
    (createCheckController kv body now s).1.status = 400 ∧
    (createCheckController kv body now s).1.body =
      ResponseBody.err ⟨"VALIDATION_ERROR", "Invalid request",
        validateCheckRequest kv body⟩ ∧
    ¬ validateCheckRequest kv body = [] ∧
    (createCheckController kv body now s).2 = s := by
  have hlen : 0 < (validateCheckRequest kv body).length :=
    List.length_pos.mpr h
  refine ⟨?_, ?_, ?_, h, ?_⟩ <;>
    simp [createCheckController, hlen, validationErrorResponse]

/-- C2 witness: the all-absent candidate fails validation and is answered
400 with the store unchanged. -/
theorem C2_validation_failure_witness :
    (createCheckController ["VH001"] emptyCandidate 0 emptyStore).1.status =
      400 ∧
    (createCheckController ["VH001"] emptyCandidate 0 emptyStore).2 =
      emptyStore := by
  obtain ⟨-, h2, -, -, h5⟩ :=
    C2_validation_failure ["VH001"] emptyCandidate 0 emptyStore (by decide)
  exact ⟨h2, h5⟩

/-- C3: a candidate on which the validator reports no problems is read
back as a typed payload, created through the service — which assigns the
fresh id (distinct from every stored id, preserving freshness), stamps the
current time, computes hasIssue from the items and appends the record —
and the response is 201 with the full stored record as body. -/
theorem C3_create_success (kv : List String) (body : RawCandidate) (now : Nat)
    (s : StoreState) (hfresh : idsFresh s)
    (hval : validateCheckRequest kv body = []) :
    ∃ d, parseCandidate body = some d ∧
      (createCheckController kv body now s).1 =
        ⟨201, ResponseBody.check (createCheckService d now s).1⟩ ∧
      (createCheckController kv body now s).2 =
        ⟨s.checks ++ [(createCheckService d now s).1], s.nextId + 1⟩ ∧
      (createCheckService d now s).1.id = s.nextId ∧
      (createCheckService d now s).1.createdAt = now ∧
      (createCheckService d now s).1.hasIssue = computeHasIssue d.items ∧
      (createCheckService d now s).1 ∈
        (createCheckController kv body now s).2.checks ∧
      (∀ c ∈ s.checks, ¬ c.id = (createCheckService d now s).1.id) ∧
      idsFresh (createCheckController kv body now s).2 := by
  obtain ⟨d, hd⟩ := Option.isSome_iff_exists.mp
    (parseCandidate_isSome_of_valid hval)
  have hctrl : createCheckController kv body now s =
      (⟨201, ResponseBody.check (createCheckService d now s).1⟩,
        (createCheckService d now s).2) := by
    simp [createCheckController, hval, hd]
  refine ⟨d, hd, by rw [hctrl], by rw [hctrl]; rfl, rfl, rfl, rfl, ?_, ?_, ?_⟩
  · rw [hctrl]
    simp [createCheckService]
  · intro c hc
    exact Nat.ne_of_lt (hfresh c hc)
  · rw [hctrl]
    intro c hc
    simp only [createCheckService, List.mem_append, List.mem_singleton] at hc
    rcases hc with hc | hc
    · exact Nat.lt_succ_of_lt (hfresh c hc)
    · subst hc
      exact Nat.lt_succ_self _

/-- C3 witness: the spec scenario candidate (BRAKES fails, odometer 15000,
vehicle VH001) is answered 201. -/
theorem C3_create_success_witness :
    (createCheckController ["VH001"] sampleCandidate 5 emptyStore).1.status =
      201 := by
  obtain ⟨d, -, h1, -⟩ := C3_create_success ["VH001"] sampleCandidate 5
    emptyStore (by intro c hc; simp [emptyStore] at hc) (by decide)
  rw [h1]

/-- C1: the derived-flag invariant holds of the empty store, is preserved
by the create and delete operations, and the record stored by create has
hasIssue true iff at least one of its items has status FAIL (so an all-OK
item list is stored with hasIssue false). -/
theorem C1_hasIssue_invariant :
    hasIssueInvariant emptyStore ∧
    (∀ d now s, hasIssueInvariant s →
      hasIssueInvariant (createCheckService d now s).2 ∧
      ((createCheckService d now s).1.hasIssue = true ↔
        ∃ i ∈ d.items, i.status = ItemStatus.FAIL) ∧
      ((∀ i ∈ d.items, ¬ i.status = ItemStatus.FAIL) →
        (createCheckService d now s).1.hasIssue = false)) ∧
    (∀ id s, hasIssueInvariant s →
      hasIssueInvariant (deleteCheckService id s).2) := by
  refine ⟨?_, ?_, ?_⟩
  · intro c hc
    simp [emptyStore] at hc
  · intro d now s hs
    refine ⟨?_, ?_, ?_⟩
    · intro c hc
      simp only [createCheckService, List.mem_append, List.mem_singleton] at hc
      rcases hc with hc | hc
      · exact hs c hc
      · subst hc
        rfl
    · simp [createCheckService, computeHasIssue, List.any_eq_true]
    · intro hall
      simp only [createCheckService, computeHasIssue]
      simp only [List.any_eq_false, beq_iff_eq]
      exact hall
  · intro id s hs c hc
    by_cases hany : (s.checks.any fun x => x.id == id) = true
    · have h2 : (deleteCheckService id s).2.checks =
          s.checks.filter (fun x => x.id != id) := by
        simp [deleteCheckService, hany]
      rw [h2] at hc
      exact hs c (List.mem_filter.mp hc).1
    · have h2 : (deleteCheckService id s).2 = s := by
        simp [deleteCheckService, hany]
      rw [h2] at hc
      exact hs c hc

/-- C1 witness: creating the spec scenario payload (BRAKES fails) on the
empty store stores the record with hasIssue true. -/
theorem C1_hasIssue_invariant_witness :
    (createCheckService sampleData 5 emptyStore).1.hasIssue = true := by
  have h := (C1_hasIssue_invariant.2.1 sampleData 5 emptyStore
    (by intro c hc; simp [emptyStore] at hc)).2.1
  exact h.mpr ⟨⟨CheckItemKey.BRAKES, ItemStatus.FAIL⟩,
    by simp [sampleData, sampleItems], rfl⟩

/-- C7: deleting a stored id removes it (other records are kept) and is
answered 204 with an empty body; a second delete of the same id — like any
delete of an id not present, which the store layer reports as removed
false rather than an error — is answered 404 with a NOT_FOUND body whose
details are empty. -/
theorem C7_delete_by_id (id : Nat) (s : StoreState) :
    ((∃ c ∈ s.checks, c.id = id) →
      (deleteCheckService id s).1 = true ∧
      deleteCheckController id s =
        (⟨204, ResponseBody.empty⟩, (deleteCheckService id s).2) ∧
      (∀ c ∈ (deleteCheckService id s).2.checks, ¬ c.id = id) ∧
      (∀ c ∈ s.checks, ¬ c.id = id →
        c ∈ (deleteCheckService id s).2.checks) ∧
      (deleteCheckService id (deleteCheckService id s).2).1 = false ∧
      deleteCheckController id (deleteCheckService id s).2 =
        (⟨404, ResponseBody.err ⟨"NOT_FOUND", "Check not found", []⟩⟩,
          (deleteCheckService id s).2)) ∧
    ((¬ ∃ c ∈ s.checks, c.id = id) →
      deleteCheckService id s = (false, s) ∧
      deleteCheckController id s =
        (⟨404, ResponseBody.err ⟨"NOT_FOUND", "Check not found", []⟩⟩, s)) := by
  constructor
  · intro hex
    have hany : (s.checks.any fun c => c.id == id) = true := by
      rw [List.any_eq_true]
      obtain ⟨c, hc, hid⟩ := hex
      exact ⟨c, hc, beq_iff_eq.mpr hid⟩
    have hsvc : deleteCheckService id s =
        (true, ⟨s.checks.filter (fun c => c.id != id), s.nextId⟩) := by
      simp [deleteCheckService, hany]
    have hgone : ∀ c ∈ (deleteCheckService id s).2.checks, ¬ c.id = id := by
      intro c hc
      rw [hsvc] at hc
      exact bne_iff_ne.mp (List.mem_filter.mp hc).2
    have hany2 : ((deleteCheckService id s).2.checks.any
        fun c => c.id == id) = false := by
      rw [List.any_eq_false]
      intro c hc
      exact fun hbeq => hgone c hc (beq_iff_eq.mp hbeq)
    have hsvc2 : deleteCheckService id (deleteCheckService id s).2 =
        (false, (deleteCheckService id s).2) := by
      rw [deleteCheckService, if_neg (by rw [hany2]; exact Bool.false_ne_true)]
    refine ⟨by rw [hsvc], ?_, hgone, ?_, by rw [hsvc2], ?_⟩
    · simp [deleteCheckController, hsvc]
    · intro c hc hne
      rw [hsvc]
      exact List.mem_filter.mpr ⟨hc, bne_iff_ne.mpr hne⟩
    · simp [deleteCheckController, hsvc2]
  · intro hnex
    have hany : (s.checks.any fun c => c.id == id) = false := by
      rw [List.any_eq_false]
      intro c hc hbeq
      exact hnex ⟨c, hc, beq_iff_eq.mp hbeq⟩
    have hsvc : deleteCheckService id s = (false, s) := by
      rw [deleteCheckService, if_neg (by rw [hany]; exact Bool.false_ne_true)]
    exact ⟨hsvc, by simp [deleteCheckController, hsvc]⟩

/-- C7 witness: deleting the sample record answers 204; deleting the same
id again reports removed false. -/
theorem C7_delete_by_id_witness :
    deleteCheckController 0 sampleStore =
      (⟨204, ResponseBody.empty⟩, (deleteCheckService 0 sampleStore).2) ∧
    (deleteCheckService 0 (deleteCheckService 0 sampleStore).2).1 = false := by
  obtain ⟨-, h2, -, -, h5, -⟩ := (C7_delete_by_id 0 sampleStore).1 (by decide)
  exact ⟨h2, h5⟩

/-- C8: a note longer than 300 characters is rejected with a note problem;
a note of at most 300 characters (hence exactly 300) adds no problem — the
candidate validates exactly as with the note absent, and an absent note
contributes no problem; the form normalization never produces an empty
string note, and normalizes the empty note to absent. -/
theorem C8_note_validation (kv : List String) (c : RawCandidate) (s : String) :
    (300 < s.length →
      (⟨"note", "must be at most 300 characters"⟩ : Problem) ∈
        validateCheckRequest kv { c with note := some s }) ∧
    (s.length ≤ 300 →
      validateCheckRequest kv { c with note := some s } =
        validateCheckRequest kv { c with note := none }) ∧
    noteProblems none = [] ∧
    (normalizeNote s = none ∨ ∃ t, normalizeNote s = some t ∧ ¬ t = "") ∧
    normalizeNote "" = none := by
  refine ⟨?_, ?_, rfl, ?_, by decide⟩
  · intro hlen
    have hnot : ¬ s.length ≤ 300 := Nat.not_le.mpr hlen
    simp [validateCheckRequest, noteProblems, hnot]
  · intro hlen
    simp [validateCheckRequest, noteProblems, hlen]
  · by_cases ht : trimString s = ""
    · exact Or.inl (by simp [normalizeNote, ht])
    · exact Or.inr ⟨trimString s, by simp [normalizeNote, ht], ht⟩

set_option maxRecDepth 4000 in
/-- C8 witness: a 301-character note is rejected with the note problem; a
300-character note validates exactly as an absent note. -/
theorem C8_note_validation_witness :
    (⟨"note", "must be at most 300 characters"⟩ : Problem) ∈
      validateCheckRequest ["VH001"] { emptyCandidate with note := some longNote } :=
  (C8_note_validation ["VH001"] emptyCandidate longNote).1 (by decide)

/-- C9: a missing odometer reading is rejected as required; a non-numeric
or non-finite reading is rejected with an odometerKm problem; a reading of
at most zero is rejected with reason must be greater than 0; and every
finite reading strictly greater than zero is accepted (its check adds no
problem, and the candidate validates exactly as with any other accepted
reading). -/
theorem C9_odometer_validation (kv : List String) (c : RawCandidate) (q : Rat) :
    ((⟨"odometerKm", "is required"⟩ : Problem) ∈
      validateCheckRequest kv { c with odometerKm := none }) ∧
    (∃ p ∈ validateCheckRequest kv { c with odometerKm := some RawNum.nonNumeric },
      p.field = "odometerKm") ∧
    (∃ p ∈ validateCheckRequest kv { c with odometerKm := some RawNum.notFinite },
      p.field = "odometerKm") ∧
    (q ≤ 0 →
      (⟨"odometerKm", "must be > 0"⟩ : Problem) ∈
        validateCheckRequest kv { c with odometerKm := some (RawNum.num q) }) ∧
    (0 < q → odometerProblems (some (RawNum.num q)) = []) ∧
    (0 < q →
      validateCheckRequest kv { c with odometerKm := some (RawNum.num q) } =
        validateCheckRequest kv { c with odometerKm := some (RawNum.num 1) }) := by
  have h1 : ¬ (1 : Rat) ≤ 0 := by norm_num
  refine ⟨?_, ?_, ?_, ?_, ?_, ?_⟩
  · simp [validateCheckRequest, odometerProblems]
  · exact ⟨⟨"odometerKm", "must be a number"⟩,
      by simp [validateCheckRequest, odometerProblems], rfl⟩
  · exact ⟨⟨"odometerKm", "must be a finite number"⟩,
      by simp [validateCheckRequest, odometerProblems], rfl⟩
  · intro hq
    simp [validateCheckRequest, odometerProblems, hq]
  · intro hq
    simp [odometerProblems, not_le.mpr hq]
  · intro hq
    simp [validateCheckRequest, odometerProblems, not_le.mpr hq, h1]

/-- C9 witness: the spec scenario reading of minus five is rejected with
the must-be-greater-than-zero problem, and one half is accepted. -/
theorem C9_odometer_validation_witness :
    (⟨"odometerKm", "must be > 0"⟩ : Problem) ∈
      validateCheckRequest ["VH001"]
        { emptyCandidate with odometerKm := some (RawNum.num (-5)) } :=
  (C9_odometer_validation ["VH001"] emptyCandidate (-5)).2.2.2.1 (by norm_num)

end VehicleChecks
